import Mathlib

/-!
Shallow embedding of the AgriLiv (crop-cure-chat-backend) inference service core:
the image-classification response assembly of `agriclip_models.py` (severity
scoring, disease-detected flag) and the text-query pipeline of
`text_query_service.py` (domain keyword gate, image-intent detection and query
cleaning, answer fallback and apology policy, lazy model-load ordering).

Machine-learning inference calls (the vision classifier and the two text
generators) are external collaborators: they enter the embedding as oracle
parameters (`Except`-valued functions), while every piece of deterministic
logic around them is translated from the Python source.  Python regular
expressions over lower-cased ASCII text are translated to explicit scanning
functions over `List Char`.
-/

namespace AgriLiv

/-- Python `\w` word character (ASCII model): letter, digit or underscore. -/
def isWordChar (c : Char) : Bool := c.isAlphanum || c == '_'

/-- Python `\s` whitespace character (ASCII model). -/
def isPySpace (c : Char) : Bool :=
  c == ' ' || c == '\t' || c == '\n' || c == '\r' || c == '\x0b' || c == '\x0c'

/-- `isPrefixL p s`: the character list `p` is a prefix of `s`. -/
def isPrefixL : List Char → List Char → Bool
  | [], _ => true
  | _ :: _, [] => false
  | a :: as, b :: bs => a == b && isPrefixL as bs

/-- Python `str.lower()` (ASCII model): lower-case every character. -/
def pyLower (s : String) : String := ⟨s.data.map Char.toLower⟩

/-- Python `str.strip()` (ASCII model): drop whitespace from both ends. -/
def pyStrip (s : List Char) : List Char :=
  ((s.dropWhile isPySpace).reverse.dropWhile isPySpace).reverse

/-- Python `str.strip()` on `String`. -/
def pyStripStr (s : String) : String := ⟨pyStrip s.data⟩

/-!
## Image pipeline (`agriclip_models.py`, route `classify`)

The success-path response assembly: given the classifier's label and integer
confidence, the generated report, and the measured processing time, build the
JSON payload.  `severity` is the inline conditional of lines 147-151.
-/

/-- Severity bucket of `classify` (lines 147-151):
`"high"` for confidence ≥ 80, `"medium"` for 60 ≤ confidence < 80,
`"low"` otherwise. -/
def severity (confidence : Int) : String :=
  if confidence ≥ 80 then "high"
  else if confidence ≥ 60 then "medium"
  else "low"

/-- The `data.classification` object of the `classify` response. -/
structure ClassificationPayload where
  diseaseDetected : Bool
  diseaseName : String
  confidence : Int
  severity : String
  processingTime : Int
  modelTag : String
deriving DecidableEq, Repr

/-- The success envelope of the `classify` response. -/
structure ClassifyResponse where
  success : Bool
  message : String
  classification : ClassificationPayload
  report : String
deriving DecidableEq, Repr

/-- Success-path response assembly of route `classify` (lines 147-169):
`diseaseDetected = (disease_name.lower() != "healthy")`, severity from the
integer confidence, the fixed message and model tag. -/
def classifySuccess (disease_name : String) (confidence : Int)
    (report : String) (processing_time : Int) : ClassifyResponse :=
  { success := true
  , message := "Plant disease analysis completed"
  , classification :=
    { diseaseDetected := pyLower disease_name != "healthy"
    , diseaseName := disease_name
    , confidence := confidence
    , severity := severity confidence
    , processingTime := processing_time
    , modelTag := "AgriCLIP + T5 Custom Pipeline" }
  , report := report }

/-!
## Text pipeline (`text_query_service.py`)
-/

/-- Fixed out-of-scope message (module constant `OUT_OF_SCOPE_MSG`). -/
def OUT_OF_SCOPE_MSG : String :=
  "I can help only with plant, fruit, livestock, and fish related questions."

/-- Keyword list of the `"plant"` entry of `DOMAIN_KEYWORDS`. -/
def plantKeywords : List String :=
  ["plant", "leaf", "crop", "tree", "flower", "root", "stem", "weed", "grass",
   "vegetable", "wheat", "rice", "corn", "maize", "soybean", "cotton",
   "banana plant", "apple plant", "tomato plant"]

/-- Keyword list of the `"fruit"` entry of `DOMAIN_KEYWORDS`. -/
def fruitKeywords : List String :=
  ["fruit", "apple", "banana", "mango", "citrus", "berry", "grape", "melon",
   "papaya", "orange", "lemon"]

/-- Keyword list of the `"livestock"` entry of `DOMAIN_KEYWORDS`. -/
def livestockKeywords : List String :=
  ["livestock", "cow", "cattle", "sheep", "goat", "pig", "animal", "farm",
   "chicken", "poultry", "duck", "buffalo"]

/-- Keyword list of the `"fish"` entry of `DOMAIN_KEYWORDS`. -/
def fishKeywords : List String :=
  ["fish", "salmon", "trout", "aquaculture", "pond", "shrimp",
   "seafood", "tilapia", "carp"]

/-- The `DOMAIN_KEYWORDS` table, in Python dict insertion (= iteration) order. -/
def DOMAIN_KEYWORDS : List (String × List String) :=
  [("plant", plantKeywords), ("fruit", fruitKeywords),
   ("livestock", livestockKeywords), ("fish", fishKeywords)]

/-- At this suffix, a word ends: either end of text or a non-word character. -/
def atWordEnd : List Char → Bool
  | [] => true
  | c :: _ => !isWordChar c

/-- `searchWordAux p prevIsWord s`: the pattern `p` (whose first and last
characters are word characters) occurs somewhere in `s` flanked by word
boundaries, where `prevIsWord` says whether the character before `s` is a
word character. -/
def searchWordAux (p : List Char) : Bool → List Char → Bool
  | _, [] => false
  | prevIsWord, c :: rest =>
    (!prevIsWord && isPrefixL p (c :: rest) && atWordEnd ((c :: rest).drop p.length))
    || searchWordAux p (isWordChar c) rest

/-- Whole-word occurrence of `k` in `s` (both flanks are word boundaries). -/
def wholeWordMatch (k : String) (s : String) : Bool :=
  searchWordAux k.data false s.data

/-- `re.search(rf"\b\x7bk\x7ds?\b", lower)` of `detect_domain` (line 78):
a whole-word occurrence of the keyword or of its `s`-plural. -/
def keywordMatch (k : String) (lower : String) : Bool :=
  wholeWordMatch k lower || wholeWordMatch (k ++ "s") lower

/-- The inner keyword loop of `detect_domain`: some keyword of the list
matches the lower-cased text. -/
def domainHasMatch (ks : List String) (lower : String) : Bool :=
  ks.any fun k => keywordMatch k lower

/-- `detect_domain` (lines 74-80): lower-case the text, then return the first
domain of `DOMAIN_KEYWORDS` (iteration order) with a matching keyword, else
`none`. -/
def detect_domain (text : String) : Option String :=
  let text_lower := pyLower text
  match DOMAIN_KEYWORDS.find? (fun dk => domainHasMatch dk.2 text_lower) with
  | some dk => some dk.1
  | none => none

/-- Request verbs of the image-intent regex (line 83). -/
def IMAGE_VERBS : List String := ["show", "give", "display", "get", "need", "want"]

/-- Image nouns of the image-intent regex (line 83). -/
def IMAGE_NOUNS : List String := ["image", "photo", "picture", "pic"]

/-- An image noun starts at this suffix. -/
def atNoun (s : List Char) : Bool := IMAGE_NOUNS.any fun n => isPrefixL n.data s

/-- Regex fragment `.*(image|photo|picture|pic)`: zero or more non-newline
characters, then an image noun. -/
def dotStarNoun : List Char → Bool
  | [] => false
  | c :: rest => atNoun (c :: rest) || (c != '\n' && dotStarNoun rest)

/-- First alternative `(show|give|display|get|need|want).*(image|photo|picture|pic)`
of the image-intent regex, searched at every position. -/
def verbThenNoun : List Char → Bool
  | [] => false
  | c :: rest =>
    (IMAGE_VERBS.any fun v =>
      isPrefixL v.data (c :: rest) && dotStarNoun ((c :: rest).drop v.data.length))
    || verbThenNoun rest

/-- Regex fragment `\s+of`: one or more whitespace characters, then `of`. -/
def spacesThenOf : List Char → Bool
  | [] => false
  | c :: rest => isPySpace c && (isPrefixL "of".data rest || spacesThenOf rest)

/-- Second alternative `(image|photo|picture|pic)\s+of` of the image-intent
regex, searched at every position. -/
def nounSpacesOf : List Char → Bool
  | [] => false
  | c :: rest =>
    (IMAGE_NOUNS.any fun n =>
      isPrefixL n.data (c :: rest) && spacesThenOf ((c :: rest).drop n.data.length))
    || nounSpacesOf rest

/-- `detect_image_intent` (lines 82-84): `re.search` of the two-alternative
pattern over the lower-cased text. -/
def detect_image_intent (text : String) : Bool :=
  verbThenNoun (pyLower text).data || nounSpacesOf (pyLower text).data

/-- The alternatives of the `re.sub` deletion pattern of `clean_image_query`
(lines 87-91), in the pattern's alternation order. -/
def SUB_TOKENS : List String :=
  ["show", "give", "display", "get", "need", "want",
   "image", "photo", "picture", "pic", "of"]

/-- One left-to-right `re.sub` pass deleting every occurrence of a
`SUB_TOKENS` alternative (first alternative wins at each position, scanning
resumes after the deleted match).  Each step consumes at least one character,
so fuel `s.length` always suffices; the fuel only makes the recursion
structural. -/
def subTokensAux : Nat → List Char → List Char
  | 0, _ => []
  | _, [] => []
  | fuel + 1, c :: rest =>
    match SUB_TOKENS.find? (fun t => isPrefixL t.data (c :: rest)) with
    | some t => subTokensAux fuel ((c :: rest).drop t.data.length)
    | none => c :: subTokensAux fuel rest

/-- `re.sub("(show|give|...)|(image|...)|(of)", "", s)` of `clean_image_query`. -/
def subTokens (s : List Char) : List Char := subTokensAux s.length s

/-- `re.sub(r"[^\w\s]", "", q)`: delete every character that is neither a
word character nor whitespace. -/
def stripPunct (s : List Char) : List Char :=
  s.filter fun c => isWordChar c || isPySpace c

/-- The cleaned query of `clean_image_query` before the falsy fallback:
token deletion on the lower-cased text, punctuation deletion, strip. -/
def cleanedQuery (text : String) : List Char :=
  pyStrip (stripPunct (subTokens (pyLower text).data))

/-- `clean_image_query` (lines 86-93): the cleaned query, or (`q or text`)
the input text when cleaning produced the empty string. -/
def clean_image_query (text : String) : String :=
  if cleanedQuery text = [] then text else ⟨cleanedQuery text⟩

/-- The fixed generic fallback answer of `text_query` (lines 170-175). -/
def FALLBACK_ANSWER : String :=
  "Causes: Environmental stress or nutrient imbalance.\n" ++
  "Symptoms: Yellowing, spots, or reduced growth.\n" ++
  "Prevention: Maintain hygiene, proper nutrition, and good water management.\n" ++
  "General care or treatment: Remove affected parts and consult a local specialist if the issue continues."

/-- The fixed apology answer of the exception handler of `text_query`
(line 188). -/
def APOLOGY_ANSWER : String :=
  "Sorry, I encountered an issue while answering your question."

/-- The specialist prompt f-string of `text_query` (lines 127-156). -/
def buildPrompt (domain text : String) : String :=
  "\nYou are an agricultural domain specialist.\n\n" ++
  "You have expert knowledge ONLY in:\n" ++
  "- Plants (banana plant, apple plant, crops, plant diseases, care)\n" ++
  "- Fruits (fruit diseases, growth, prevention)\n" ++
  "- Livestock (cow, goat, poultry health and care)\n" ++
  "- Fish (aquaculture, fish diseases, pond management)\n\n" ++
  "Domain: " ++ domain ++ "\n\n" ++
  "Answer as a SPECIALIST.\n\n" ++
  "Rules:\n" ++
  "- Explain causes and symptoms if relevant\n" ++
  "- Suggest prevention and general care methods\n" ++
  "- Use simple, farmer-friendly language\n" ++
  "- Do NOT give exact chemical names, dosages, or medical prescriptions\n" ++
  "- Prefer natural methods and best practices\n" ++
  "- Do NOT mention AI, models, or technical terms\n\n" ++
  "Answer in 4 sections:\nCauses:\nSymptoms:\nPrevention:\nGeneral care or treatment:\n\n" ++
  "Question:\n" ++ text ++ "\n"

/-- The response model `TextQueryResponse` (`type`, `domain`, `answer`,
optional `imageQuery`). -/
structure TextQueryResponse where
  type : String
  domain : String
  answer : String
  imageQuery : Option String
deriving DecidableEq, Repr

/-- Outcome of the `/text/query` route: an `HTTPException` (status, detail)
or a `TextQueryResponse`. -/
inductive TQResult where
  | httpError (status : Nat) (detail : String)
  | ok (resp : TextQueryResponse)
deriving DecidableEq, Repr

/-- `text_query` (lines 98-189).  `loadOk` abstracts `load_text_model`
(lines 24-34): when loading fails it raises the fixed
`HTTPException(500, "Failed to load text model")` before anything else runs.
`gen` abstracts tokenization + `model.generate` + decoding inside the `try`
block: it maps the built prompt to either the decoded output or an exception
message; the surrounding deterministic logic is translated verbatim. -/
def text_query (loadOk : Bool) (gen : String → Except String String)
    (requestText : String) : TQResult :=
  match loadOk with
  | false => TQResult.httpError 500 "Failed to load text model"
  | true =>
    let text := pyStripStr requestText
    if text = "" then TQResult.httpError 400 "Empty query"
    else
      match detect_domain text with
      | none => TQResult.ok ⟨"text", "plant", OUT_OF_SCOPE_MSG, none⟩
      | some domain =>
        if detect_image_intent text then
          TQResult.ok ⟨"image", domain,
            "This image shows an example related to '" ++ clean_image_query text ++
              "' in the " ++ domain ++ " domain.",
            some (clean_image_query text)⟩
        else
          match gen (buildPrompt domain text) with
          | Except.error _ => TQResult.ok ⟨"text", domain, APOLOGY_ANSWER, none⟩
          | Except.ok decoded =>
            let answer := pyStripStr decoded
            TQResult.ok ⟨"text", domain,
              if answer = "" ∨ answer.length < 10 then FALLBACK_ANSWER else answer,
              none⟩

end AgriLiv

namespace AgriLiv

/-!
## Theorems: image pipeline
-/

/-- C1: the severity reported by the image pipeline is exactly `severity`
applied to the integer confidence (a pure function of the confidence alone:
it does not depend on the label, report or timing), and for every integer
confidence the bucket is `"high"` iff c ≥ 80, `"medium"` iff 60 ≤ c < 80,
and `"low"` iff c < 60. -/
theorem severity_spec (name report : String) (conf t : Int) :
    (classifySuccess name conf report t).classification.severity = severity conf ∧
    (severity conf = "high" ↔ 80 ≤ conf) ∧
    (severity conf = "medium" ↔ (60 ≤ conf ∧ conf < 80)) ∧
    (severity conf = "low" ↔ conf < 60) := by
  refine ⟨rfl, ?_, ?_, ?_⟩ <;>
  · unfold severity
    split_ifs with h1 h2 <;> constructor <;> intro h <;>
      first
      | rfl
      | omega
      | exact absurd h (by decide)

/-- C2: in every classification response assembled by the image pipeline,
`diseaseDetected` is true iff the classified label, lower-cased, is not
exactly the string `"healthy"`. -/
theorem diseaseDetected_iff (name report : String) (conf t : Int) :
    (classifySuccess name conf report t).classification.diseaseDetected = true ↔
      pyLower name ≠ "healthy" := by
  simp [classifySuccess, bne_iff_ne]

/-!
## Theorems: domain gate
-/

/-- C3 counterexample: the text `"apple tree"` contains the fruit keyword
`"apple"` as a whole word (case-insensitively), yet the Domain Gate returns
`"plant"` (the plant keyword `"tree"` also matches, and `"plant"` comes first
in table iteration order), not `"fruit"`.  So "for all text containing a
domain keyword as a whole word, it returns that domain" fails as stated. -/
theorem detect_domain_cross_domain_counterexample :
    keywordMatch "apple" (pyLower "apple tree") = true ∧
    detect_domain "apple tree" = some "plant" ∧
    detect_domain "apple tree" ≠ some "fruit" := by decide

/-- C3 (amended): the Domain Gate lower-cases the text, tests each domain's
keywords as whole-word matches with optional plural `s`, and returns the
first domain in table iteration order (plant, fruit, livestock, fish) with
any matching keyword, or `none` when no domain matches; in particular, for
all text containing a domain keyword as a whole word it returns some domain
(that domain when no earlier domain in table order also has a match). -/
theorem detect_domain_first_match (text : String) :
    (detect_domain text =
      (if domainHasMatch plantKeywords (pyLower text) then some "plant"
       else if domainHasMatch fruitKeywords (pyLower text) then some "fruit"
       else if domainHasMatch livestockKeywords (pyLower text) then some "livestock"
       else if domainHasMatch fishKeywords (pyLower text) then some "fish"
       else none))
    ∧ (∀ dk ∈ DOMAIN_KEYWORDS, ∀ k ∈ dk.2, keywordMatch k (pyLower text) = true →
        (detect_domain text).isSome = true) := by
  have hfirst : detect_domain text =
      (if domainHasMatch plantKeywords (pyLower text) then some "plant"
       else if domainHasMatch fruitKeywords (pyLower text) then some "fruit"
       else if domainHasMatch livestockKeywords (pyLower text) then some "livestock"
       else if domainHasMatch fishKeywords (pyLower text) then some "fish"
       else none) := by
    simp only [detect_domain, DOMAIN_KEYWORDS, List.find?]
    cases h1 : domainHasMatch plantKeywords (pyLower text) <;>
      cases h2 : domainHasMatch fruitKeywords (pyLower text) <;>
        cases h3 : domainHasMatch livestockKeywords (pyLower text) <;>
          cases h4 : domainHasMatch fishKeywords (pyLower text) <;>
            simp [h1, h2, h3, h4]
  refine ⟨hfirst, ?_⟩
  intro dk hdk k hk hm
  have hany : domainHasMatch dk.2 (pyLower text) = true := by
    unfold domainHasMatch
    exact List.any_eq_true.mpr ⟨k, hk, hm⟩
  rw [hfirst]
  simp only [DOMAIN_KEYWORDS, List.mem_cons, List.not_mem_nil, or_false] at hdk
  rcases hdk with rfl | rfl | rfl | rfl <;>
    simp only at hany <;>
      cases h1 : domainHasMatch plantKeywords (pyLower text) <;>
        cases h2 : domainHasMatch fruitKeywords (pyLower text) <;>
          cases h3 : domainHasMatch livestockKeywords (pyLower text) <;>
            cases h4 : domainHasMatch fishKeywords (pyLower text) <;>
              simp_all

/-- C3 witness: `"i have a cow"` contains the livestock keyword `"cow"`,
and the Domain Gate returns some domain on it. -/
theorem detect_domain_first_match_witness :
    (detect_domain "i have a cow").isSome = true :=
  (detect_domain_first_match "i have a cow").2 ("livestock", livestockKeywords)
    (by decide) "cow" (by decide) (by decide)

/-!
## Theorems: text query pipeline
-/

/-- C4: for every non-empty (after trimming) text with no matching domain
keyword, the pipeline returns type `"text"`, default domain `"plant"` and the
fixed out-of-scope message, and the result does not depend on the generation
model (it is never invoked). -/
theorem text_query_out_of_scope (gen gen' : String → Except String String)
    (text : String)
    (hne : pyStripStr text ≠ "")
    (hdom : detect_domain (pyStripStr text) = none) :
    text_query true gen text = TQResult.ok ⟨"text", "plant", OUT_OF_SCOPE_MSG, none⟩ ∧
    text_query true gen text = text_query true gen' text := by
  unfold text_query
  simp [hne, hdom]

/-- C4 witness: the out-of-scope scenario text of the spec. -/
theorem text_query_out_of_scope_witness :
    text_query true (fun _ => Except.error "e") "How is the stock market today?" =
      TQResult.ok ⟨"text", "plant", OUT_OF_SCOPE_MSG, none⟩ :=
  (text_query_out_of_scope (fun _ => Except.error "e") (fun _ => Except.ok "")
    "How is the stock market today?" (by decide) (by decide)).1

/-- C5: for every non-empty in-domain text with image intent, the pipeline
returns type `"image"` with `imageQuery = clean_image_query` of the trimmed
text, that query is non-empty, and whenever the cleaning pass empties the
string the query equals the (trimmed) input text verbatim. -/
theorem text_query_image_intent (gen : String → Except String String)
    (text d : String)
    (hne : pyStripStr text ≠ "")
    (hdom : detect_domain (pyStripStr text) = some d)
    (hint : detect_image_intent (pyStripStr text) = true) :
    text_query true gen text =
      TQResult.ok ⟨"image", d,
        "This image shows an example related to '" ++
          clean_image_query (pyStripStr text) ++ "' in the " ++ d ++ " domain.",
        some (clean_image_query (pyStripStr text))⟩ ∧
    clean_image_query (pyStripStr text) ≠ "" ∧
    (cleanedQuery (pyStripStr text) = [] →
      clean_image_query (pyStripStr text) = pyStripStr text) := by
  refine ⟨?_, ?_, ?_⟩
  · unfold text_query
    simp [hne, hdom, hint]
  · unfold clean_image_query
    by_cases hc : cleanedQuery (pyStripStr text) = []
    · rw [if_pos hc]; exact hne
    · rw [if_neg hc]
      intro h
      exact hc (by simpa using congrArg String.data h)
  · intro hc
    unfold clean_image_query
    rw [if_pos hc]

/-- C5 witness: `"show me a photo of rice"` is in the plant domain with image
intent; the pipeline echoes its cleaned query. -/
theorem text_query_image_intent_witness :
    text_query true (fun _ => Except.ok "") "show me a photo of rice" =
      TQResult.ok ⟨"image", "plant",
        "This image shows an example related to 'me a   rice' in the plant domain.",
        some "me a   rice"⟩ :=
  ((text_query_image_intent (fun _ => Except.ok "") "show me a photo of rice"
    "plant" (by decide) (by decide) (by decide)).1).trans (by decide)

/-- C6 counterexample: on `"show me a photo of rice"` the pipeline's cleaned
query keeps the untouched filler words `"me a"` (token deletion removes only
the verb, the image noun and `"of"`), so `imageQuery` is `"me a   rice"`,
not `"rice"` as the claim states. -/
theorem text_query_photo_of_rice_counterexample :
    text_query true (fun _ => Except.ok "") "show me a photo of rice" =
      TQResult.ok ⟨"image", "plant",
        "This image shows an example related to 'me a   rice' in the plant domain.",
        some "me a   rice"⟩ ∧
    ("me a   rice" : String) ≠ "rice" := by decide

/-- C6 (amended): for the input `"show me a photo of rice"` the pipeline
returns type `"image"`, domain `"plant"` and `imageQuery` exactly
`"me a   rice"` (the lower-cased text with `show`, `photo` and `of` deleted
and whitespace trimmed), whatever the generation model does. -/
theorem text_query_photo_of_rice (gen : String → Except String String) :
    text_query true gen "show me a photo of rice" =
      TQResult.ok ⟨"image", "plant",
        "This image shows an example related to 'me a   rice' in the plant domain.",
        some "me a   rice"⟩ := rfl

/-- C7: for every non-empty in-domain text without image intent, when
generation succeeds and its decoded, trimmed answer is empty or shorter than
the single threshold of 10 characters, the pipeline substitutes the fixed
generic four-section fallback answer, keeping type `"text"` and the resolved
domain. -/
theorem text_query_short_answer_fallback (gen : String → Except String String)
    (text d g : String)
    (hne : pyStripStr text ≠ "")
    (hdom : detect_domain (pyStripStr text) = some d)
    (hint : detect_image_intent (pyStripStr text) = false)
    (hgen : gen (buildPrompt d (pyStripStr text)) = Except.ok g)
    (hshort : pyStripStr g = "" ∨ (pyStripStr g).length < 10) :
    text_query true gen text = TQResult.ok ⟨"text", d, FALLBACK_ANSWER, none⟩ := by
  unfold text_query
  simp only [hne, hdom, hint, hgen]
  simp [hne, if_pos hshort]

/-- C7 witness: a livestock question whose generated answer `"short"` has
fewer than 10 characters falls back to the generic answer. -/
theorem text_query_short_answer_fallback_witness :
    text_query true (fun _ => Except.ok "short") "my cow is sick" =
      TQResult.ok ⟨"text", "livestock", FALLBACK_ANSWER, none⟩ :=
  text_query_short_answer_fallback (fun _ => Except.ok "short") "my cow is sick"
    "livestock" "short" (by decide) (by decide) (by decide) rfl
    (Or.inr (by decide))

/-- C8: for every non-empty in-domain text without image intent, when the
generation step fails with any exception, the pipeline catches it and
returns type `"text"`, the resolved domain and the fixed apology answer —
the failure never propagates past the pipeline boundary. -/
theorem text_query_generation_error (gen : String → Except String String)
    (text d e : String)
    (hne : pyStripStr text ≠ "")
    (hdom : detect_domain (pyStripStr text) = some d)
    (hint : detect_image_intent (pyStripStr text) = false)
    (hgen : gen (buildPrompt d (pyStripStr text)) = Except.error e) :
    text_query true gen text = TQResult.ok ⟨"text", d, APOLOGY_ANSWER, none⟩ := by
  unfold text_query
  simp [hne, hdom, hint, hgen]

/-- C8 witness: a livestock question whose generation raises is answered with
the fixed apology. -/
theorem text_query_generation_error_witness :
    text_query true (fun _ => Except.error "boom") "my cow is sick" =
      TQResult.ok ⟨"text", "livestock", APOLOGY_ANSWER, none⟩ :=
  text_query_generation_error (fun _ => Except.error "boom") "my cow is sick"
    "livestock" "boom" (by decide) (by decide) (by decide) rfl

/-- C9: with the text model loaded, every query whose text trims to the empty
string is rejected with HTTP 400 `"Empty query"`, for every generation model
(no answer is produced). -/
theorem text_query_empty_rejected (gen : String → Except String String)
    (text : String) (h : pyStripStr text = "") :
    text_query true gen text = TQResult.httpError 400 "Empty query" := by
  unfold text_query
  simp [h]

/-- C9 witness: a whitespace-only query is rejected with 400. -/
theorem text_query_empty_rejected_witness :
    text_query true (fun _ => Except.ok "") "   " =
      TQResult.httpError 400 "Empty query" :=
  text_query_empty_rejected (fun _ => Except.ok "") "   " (by decide)

/-- C10: model loading runs before input validation: when loading fails,
every request — the empty ones included — receives the fixed HTTP 500
`"Failed to load text model"`; conversely a 400 empty-input rejection can
only be produced when loading succeeded. -/
theorem text_query_load_before_validation (gen : String → Except String String)
    (text : String) (loadOk : Bool) :
    text_query false gen text = TQResult.httpError 500 "Failed to load text model" ∧
    (text_query loadOk gen text = TQResult.httpError 400 "Empty query" →
      loadOk = true) := by
  constructor
  · rfl
  · intro h
    cases loadOk
    · exact absurd h (by simp [text_query])
    · rfl

/-- C10 witness: with loading failed, even the empty query gets 500; with
loading succeeded, the empty query gets 400 (so the implication fires). -/
theorem text_query_load_before_validation_witness :
    text_query false (fun _ => Except.ok "") "" =
      TQResult.httpError 500 "Failed to load text model" ∧ true = true :=
  ⟨(text_query_load_before_validation (fun _ => Except.ok "") "" true).1,
   (text_query_load_before_validation (fun _ => Except.ok "") "" true).2 (by decide)⟩

end AgriLiv
